import Mathlib

/-!
Shallow embedding of `src/functions/register/main.py`: the registration
throttling and OTP issuance engine.  The datastore is a list of records,
time is an `Int` count of seconds (UTC), and the random sources
(`random.choice` digit draws and `secrets.token_hex` bytes) are explicit
oracle inputs.  Python truthiness (`x or y` falling through on the empty
string, `dict.get` defaults) is embedded explicitly.
-/

namespace Register

/-- One datastore entity of kind "Registrations", as written by
`_save_to_datastore`. -/
structure Record where
  code : String
  msisdn : String
  date : Int
  registration_id : String
  sms_send : Bool
  ip : String
  status : String
deriving DecidableEq, Repr, Inhabited

/-- The module-level constants from `main.py`. -/
def INVALID_REGS_PER_IP_LIMIT : Nat := 10

def INVALID_REGS_PER_MSISDN_LIMIT : Nat := 4

def SEND_SMS_LIMIT_PER_MINUTE : Nat := 1

def SEND_SMS_LIMIT_PER_HOUR : Nat := 2

def SEND_SMS_LIMIT_PER_24_HOURS : Nat := 5

def REGISTRATION_STATUS_PENDING : String := "pending"

def REGISTRATION_STATUS_INCORRECT : String := "incorrect"

def MESSAGE_INVALID_PHONE_NUMBER : String := "invalid_phone_number"

def MESSAGE_REGISTRATION_NOT_AVAILABLE : String := "registration_not_available"

/-- Seconds in `timedelta(minutes=1)`. -/
def ONE_MINUTE : Int := 60

/-- Seconds in `timedelta(minutes=10)`. -/
def TEN_MINUTES : Int := 600

/-- Seconds in `timedelta(hours=1)`. -/
def ONE_HOUR : Int := 3600

/-- Seconds in `timedelta(days=1)`. -/
def ONE_DAY : Int := 86400

/-- Property lookup used by the datastore query's `add_filter(field, "=", value)`:
maps a property name to its value on an entity. -/
def Record.field (r : Record) : String → String
  | "code" => r.code
  | "msisdn" => r.msisdn
  | "registration_id" => r.registration_id
  | "ip" => r.ip
  | "status" => r.status
  | _ => ""

/-- The filter part of `_get_registration_entities`: `field = value`,
optionally `status = status`, and `date > start_date`. -/
def matchesQuery (field value : String) (status : Option String) (start_date : Int)
    (r : Record) : Bool :=
  Record.field r field == value
    && (match status with
        | some s => r.status == s
        | none => true)
    && decide (start_date < r.date)

/-- Insert a record into a list kept in descending `date` order. -/
def insertDesc (r : Record) : List Record → List Record
  | [] => [r]
  | x :: xs => if x.date ≤ r.date then r :: x :: xs else x :: insertDesc r xs

/-- Sort records descending by `date`, the embedding of
`query.order = ["-date"]`. -/
def sortByDateDesc : List Record → List Record
  | [] => []
  | x :: xs => insertDesc x (sortByDateDesc xs)

/-- Embedding of `_get_registration_entities`: query the store for entities
with `field = value`, optional status filter, `date > now - time_period`,
ordered newest first. -/
def _get_registration_entities (now : Int) (store : List Record)
    (field value : String) (time_period : Int) (status : Option String) :
    List Record :=
  sortByDateDesc (store.filter (matchesQuery field value status (now - time_period)))

/-- Embedding of `_is_too_many_requests_for`: concatenates the pending and the
incorrect query results over a 1-hour window and compares the total against
the limit. -/
def _is_too_many_requests_for (now : Int) (store : List Record)
    (field value : String) (limit : Nat) : Bool :=
  let registration_entities :=
    _get_registration_entities now store field value ONE_HOUR
        (some REGISTRATION_STATUS_PENDING)
      ++ _get_registration_entities now store field value ONE_HOUR
        (some REGISTRATION_STATUS_INCORRECT)
  decide (limit ≤ registration_entities.length)

/-- Embedding of `_get_pending_registration_code`: the `code` of the newest
pending record for the msisdn in the last 10 minutes, if any. -/
def _get_pending_registration_code (now : Int) (store : List Record)
    (msisdn : String) : Option String :=
  match _get_registration_entities now store "msisdn" msisdn TEN_MINUTES
      (some REGISTRATION_STATUS_PENDING) with
  | [] => none
  | e :: _ => some e.code

/-- Embedding of `_should_send_sms`: three stacked window counts over all
records for the msisdn regardless of status. -/
def _should_send_sms (now : Int) (store : List Record) (msisdn : String) : Bool :=
  let last_minute :=
    (_get_registration_entities now store "msisdn" msisdn ONE_MINUTE none).length
  let last_hour :=
    (_get_registration_entities now store "msisdn" msisdn ONE_HOUR none).length
  let last_24_hours :=
    (_get_registration_entities now store "msisdn" msisdn ONE_DAY none).length
  if SEND_SMS_LIMIT_PER_MINUTE < last_minute
      || SEND_SMS_LIMIT_PER_HOUR < last_hour
      || SEND_SMS_LIMIT_PER_24_HOURS < last_24_hours then
    false
  else
    true

/-- Embedding of `re.sub("[^0-9,+]", "", msisdn)`: strip every character that
is not an ASCII decimal digit, a comma or a plus sign. -/
def stripNonPhone (s : String) : String :=
  String.mk (s.data.filter (fun c => c.isDigit || c == '+' || c == ','))

/-- Embedding of `re.match(r"^\+48[0-9]\x7b9\x7d$", s)`: the string is the
literal `+48` followed by exactly nine ASCII decimal digits. -/
def matchesPlusFortyEight (s : String) : Bool :=
  match s.data with
  | '+' :: '4' :: '8' :: rest => decide (rest.length = 9) && rest.all Char.isDigit
  | _ => false

/-- Embedding of `_check_phone_number`: strip, then match against the
numbering-plan pattern; returns only a boolean verdict. -/
def _check_phone_number (msisdn : String) : Bool :=
  matchesPlusFortyEight (stripNonPhone msisdn)

/-- Embedding of `_save_to_datastore`: a new entity with `sms_send = False`
and `status = "pending"` is put into the store. -/
def _save_to_datastore (store : List Record) (code msisdn : String) (date : Int)
    (registration_id ip : String) : List Record :=
  { code := code
    msisdn := msisdn
    date := date
    registration_id := registration_id
    sms_send := false
    ip := ip
    status := REGISTRATION_STATUS_PENDING } :: store

/-- Lower-case hexadecimal digit character for a value below 16, as produced
by Python's hex encoding. -/
def hexDigitChar (n : Nat) : Char :=
  if n < 10 then Char.ofNat (48 + n) else Char.ofNat (87 + n)

/-- Embedding of `secrets.token_hex` applied to an explicit byte list: each
byte becomes two lower-case hex characters. -/
def token_hex (bytes : List Nat) : String :=
  String.mk ((bytes.map (fun b => [hexDigitChar (b / 16 % 16), hexDigitChar (b % 16)])).flatten)

/-- Embedding of `"".join(random.choice(CODE_CHARACTERS) for _ in range(6))`
applied to explicit digit draws: each draw indexes `string.digits`. -/
def randomCode (draws : List (Fin 10)) : String :=
  String.mk (draws.map (fun d => Char.ofNat (48 + d.val)))

/-- Split a character list at every comma, the semantics of Python's
`s.split(",")`. -/
def splitCommaAux : List Char → List Char → List String
  | [], acc => [String.mk acc.reverse]
  | c :: cs, acc =>
    if c = ',' then String.mk acc.reverse :: splitCommaAux cs []
    else splitCommaAux cs (c :: acc)

/-- Embedding of `s.split(",")`: the comma-separated entries of a string,
with no trimming; never empty. -/
def splitComma (s : String) : List String :=
  splitCommaAux s.data []

/-- The incoming HTTP request as the handler sees it: method, JSON-ness, the
three body fields, and the forwarded-for header (`none` when absent). -/
structure Request where
  method : String
  is_json : Bool
  body_msisdn : Option String
  body_lang : Option String
  body_send_sms : Option Bool
  header_xff : Option String
deriving DecidableEq, Repr

/-- Deployment environment and external collaborators: the `STAGE` variable,
the current UTC clock, the datastore contents, and the localized message
catalog `MESSAGES[code][lang]`. -/
structure Env where
  stage : String
  now : Int
  store : List Record
  messages : String → String → String

/-- The explicit random oracle: the six `random.choice` digit draws for a
fresh code, and the 32 bytes consumed by `secrets.token_hex(32)`. -/
structure Rand where
  codeDraws : List (Fin 10)
  tokenBytes : List Nat
deriving DecidableEq, Repr

/-- The HTTP response value: a failure JSON with status code, the success
JSON (with the optional development-mode `code` field), or an unhandled
exception escaping the handler (server error). -/
inductive RegisterResult where
  | reject (message : String) (httpStatus : Nat)
  | ok (registration_id : String) (code : Option String)
  | serverError
deriving DecidableEq, Repr

/-- A message published to the send-register-sms topic, tagged with whether
the asynchronous delivery channel eventually succeeded (the handler never
observes this flag: `publisher.publish` is fire-and-forget). -/
structure PubMessage where
  registration_id : String
  msisdn : String
  code : String
  lang : String
  delivered : Bool
deriving DecidableEq, Repr

/-- Embedding of `_publish_to_send_register_sms_topic`: builds the payload
and hands it to the asynchronous publisher; the delivery outcome is recorded
on the message but not returned to the caller. -/
def _publish_to_send_register_sms_topic (deliveryOk : Bool)
    (msisdn registration_id code lang : String) : PubMessage :=
  { registration_id := registration_id
    msisdn := msisdn
    code := code
    lang := lang
    delivered := deliveryOk }

/-- Everything observable about one handled request: the response, the
datastore after the request, and the messages published. -/
structure RegisterOutcome where
  response : RegisterResult
  store : List Record
  published : List PubMessage
deriving DecidableEq, Repr

/-- Embedding of `_is_language_valid`: `lang` must be `"pl"` or `"en"`
(a missing field reads as `None` and fails). -/
def _is_language_valid (req : Request) : Bool :=
  req.body_lang == some "pl" || req.body_lang == some "en"

/-- Embedding of `_is_request_valid`: the early-exit validation chain.
Returns `some response` on rejection, `none` when the request is admitted. -/
def _is_request_valid (env : Env) (req : Request) : Option RegisterResult :=
  if req.method ≠ "POST" then
    some (.reject "Invalid method" 405)
  else if !req.is_json then
    some (.reject "Invalid data" 422)
  else if !_is_language_valid req then
    some (.reject "Set lang parameter to pl or en" 422)
  else
    let lang := req.body_lang.getD ""
    match req.body_msisdn with
    | none => some (.reject (env.messages MESSAGE_INVALID_PHONE_NUMBER lang) 422)
    | some m =>
      if !_check_phone_number m then
        some (.reject (env.messages MESSAGE_INVALID_PHONE_NUMBER lang) 422)
      else if _is_too_many_requests_for env.now env.store "msisdn" m
          INVALID_REGS_PER_MSISDN_LIMIT then
        some (.reject (env.messages MESSAGE_REGISTRATION_NOT_AVAILABLE lang) 429)
      else
        none

/-- Embedding of the `register` handler.  The order of effects follows the
source: validation, source-IP extraction (an `AttributeError` — server
error — when the forwarded-for header is missing), code issuance with the
Python `or` falling through on an empty pending code, `token_hex` id,
persistence, then the development bypass or the throttled publish. -/
def register (env : Env) (req : Request) (rnd : Rand) (deliveryOk : Bool) :
    RegisterOutcome :=
  match _is_request_valid env req with
  | some response => ⟨response, env.store, []⟩
  | none =>
    let msisdn := req.body_msisdn.getD ""
    match req.header_xff with
    | none => ⟨.serverError, env.store, []⟩
    | some xff =>
      let ip := (splitComma xff).getLastD ""
      let lang := req.body_lang.getD ""
      let code :=
        match _get_pending_registration_code env.now env.store msisdn with
        | some c => if c = "" then randomCode rnd.codeDraws else c
        | none => randomCode rnd.codeDraws
      let registration_id := token_hex rnd.tokenBytes
      let date := env.now
      let store1 := _save_to_datastore env.store code msisdn date registration_id ip
      let send_sms := req.body_send_sms.getD true
      if env.stage == "DEVELOPMENT" && !send_sms then
        ⟨.ok registration_id (some code), store1, []⟩
      else if _should_send_sms env.now store1 msisdn then
        ⟨.ok registration_id none, store1,
          [_publish_to_send_register_sms_topic deliveryOk msisdn registration_id code lang]⟩
      else
        ⟨.ok registration_id none, store1, []⟩

/-- Whether a response JSON carries the raw OTP `code` field. -/
def RegisterResult.hasCode : RegisterResult → Bool
  | .ok _ (some _) => true
  | _ => false

/-- The set of pending records for a msisdn inside the 10-minute reuse
window, before ordering: the records `_get_pending_registration_code`
queries. -/
def pendingWindow (now : Int) (store : List Record) (msisdn : String) :
    List Record :=
  store.filter
    (matchesQuery "msisdn" msisdn (some REGISTRATION_STATUS_PENDING) (now - TEN_MINUTES))

theorem insertDesc_ne_nil (r : Record) (l : List Record) : insertDesc r l ≠ [] := by
  cases l with
  | nil => simp [insertDesc]
  | cons x xs =>
    simp only [insertDesc]
    split <;> simp

theorem mem_insertDesc {a r : Record} {l : List Record} :
    a ∈ insertDesc r l ↔ a = r ∨ a ∈ l := by
  induction l with
  | nil => simp [insertDesc]
  | cons x xs ih =>
    simp only [insertDesc]
    split
    · simp
    · simp only [List.mem_cons, ih]
      tauto

theorem mem_sortByDateDesc {a : Record} {l : List Record} :
    a ∈ sortByDateDesc l ↔ a ∈ l := by
  induction l with
  | nil => simp [sortByDateDesc]
  | cons x xs ih => simp [sortByDateDesc, mem_insertDesc, ih]

theorem sortByDateDesc_eq_nil_iff {l : List Record} :
    sortByDateDesc l = [] ↔ l = [] := by
  cases l with
  | nil => simp [sortByDateDesc]
  | cons x xs =>
    simp only [sortByDateDesc]
    constructor
    · intro h
      exact absurd h (insertDesc_ne_nil x (sortByDateDesc xs))
    · intro h
      exact absurd h (by simp)

theorem date_le_headD_insertDesc (r : Record) (l : List Record) (d : Record) :
    r.date ≤ ((insertDesc r l).headD d).date := by
  cases l with
  | nil => simp [insertDesc]
  | cons x xs =>
    simp only [insertDesc]
    split
    · simp
    · simp only [List.headD_cons]
      omega

theorem headD_date_le_insertDesc (r : Record) {l : List Record} (d : Record)
    (h : l ≠ []) : (l.headD d).date ≤ ((insertDesc r l).headD d).date := by
  cases l with
  | nil => exact absurd rfl h
  | cons x xs =>
    simp only [insertDesc]
    split
    · simp only [List.headD_cons]
      omega
    · simp

theorem date_le_headD_sortByDateDesc {a : Record} {l : List Record} (d : Record)
    (h : a ∈ l) : a.date ≤ ((sortByDateDesc l).headD d).date := by
  induction l with
  | nil => cases h
  | cons x xs ih =>
    simp only [sortByDateDesc]
    rcases List.mem_cons.mp h with rfl | hmem
    · exact date_le_headD_insertDesc a (sortByDateDesc xs) d
    · refine le_trans (ih hmem) ?_
      apply headD_date_le_insertDesc
      intro hnil
      rw [sortByDateDesc_eq_nil_iff] at hnil
      subst hnil
      cases hmem

theorem headD_mem_of_ne_nil {l : List Record} (d : Record) (h : l ≠ []) :
    l.headD d ∈ l := by
  cases l with
  | nil => exact absurd rfl h
  | cons x xs => simp

theorem headD_sortByDateDesc_mem {l : List Record} (d : Record) (h : l ≠ []) :
    (sortByDateDesc l).headD d ∈ l := by
  rw [← mem_sortByDateDesc]
  apply headD_mem_of_ne_nil
  intro hnil
  exact h (sortByDateDesc_eq_nil_iff.mp hnil)

theorem pending_code_none_iff (now : Int) (store : List Record) (msisdn : String) :
    _get_pending_registration_code now store msisdn = none ↔
      pendingWindow now store msisdn = [] := by
  unfold _get_pending_registration_code _get_registration_entities
  rcases h : sortByDateDesc (store.filter
      (matchesQuery "msisdn" msisdn (some REGISTRATION_STATUS_PENDING) (now - TEN_MINUTES))) with
    _ | ⟨e, es⟩
  · simpa [pendingWindow] using sortByDateDesc_eq_nil_iff.mp h
  · simp only [pendingWindow]
    constructor
    · intro hc
      cases hc
    · intro hnil
      rw [show store.filter
            (matchesQuery "msisdn" msisdn (some REGISTRATION_STATUS_PENDING) (now - TEN_MINUTES)) = []
          from hnil] at h
      cases h

theorem pending_code_some_spec (now : Int) (store : List Record) (msisdn : String)
    (h : pendingWindow now store msisdn ≠ []) :
    ∃ r ∈ pendingWindow now store msisdn,
      (∀ r' ∈ pendingWindow now store msisdn, r'.date ≤ r.date) ∧
      _get_pending_registration_code now store msisdn = some r.code := by
  have hs : sortByDateDesc (pendingWindow now store msisdn) ≠ [] := by
    intro hnil
    exact h (sortByDateDesc_eq_nil_iff.mp hnil)
  refine ⟨(sortByDateDesc (pendingWindow now store msisdn)).headD default,
    headD_sortByDateDesc_mem default h, ?_, ?_⟩
  · intro r' hr'
    exact date_le_headD_sortByDateDesc default hr'
  · unfold _get_pending_registration_code _get_registration_entities
    rcases hc : sortByDateDesc (pendingWindow now store msisdn) with _ | ⟨e, es⟩
    · exact absurd hc hs
    · unfold pendingWindow at hc
      rw [hc]
      simp [pendingWindow, hc]

/-- The outcome of `register` once validation has admitted the request and
the forwarded-for header is present, written out explicitly. -/
def registerAdmitted (env : Env) (req : Request) (rnd : Rand) (deliveryOk : Bool)
    (m xff : String) : RegisterOutcome :=
  let ip := (splitComma xff).getLastD ""
  let lang := req.body_lang.getD ""
  let code :=
    match _get_pending_registration_code env.now env.store m with
    | some c => if c = "" then randomCode rnd.codeDraws else c
    | none => randomCode rnd.codeDraws
  let registration_id := token_hex rnd.tokenBytes
  let store1 := _save_to_datastore env.store code m env.now registration_id ip
  let send_sms := req.body_send_sms.getD true
  if env.stage == "DEVELOPMENT" && !send_sms then
    ⟨.ok registration_id (some code), store1, []⟩
  else if _should_send_sms env.now store1 m then
    ⟨.ok registration_id none, store1,
      [_publish_to_send_register_sms_topic deliveryOk m registration_id code lang]⟩
  else
    ⟨.ok registration_id none, store1, []⟩

theorem is_request_valid_none (env : Env) (req : Request) (m : String)
    (hm : req.method = "POST") (hj : req.is_json = true)
    (hl : _is_language_valid req = true)
    (hmsisdn : req.body_msisdn = some m)
    (hphone : _check_phone_number m = true)
    (hrate : _is_too_many_requests_for env.now env.store "msisdn" m
      INVALID_REGS_PER_MSISDN_LIMIT = false) :
    _is_request_valid env req = none := by
  unfold _is_request_valid
  rw [hm, hj, hl, hmsisdn]
  simp [hphone, hrate]

theorem register_admitted (env : Env) (req : Request) (rnd : Rand)
    (deliveryOk : Bool) (m xff : String)
    (hm : req.method = "POST") (hj : req.is_json = true)
    (hl : _is_language_valid req = true)
    (hmsisdn : req.body_msisdn = some m)
    (hphone : _check_phone_number m = true)
    (hrate : _is_too_many_requests_for env.now env.store "msisdn" m
      INVALID_REGS_PER_MSISDN_LIMIT = false)
    (hxff : req.header_xff = some xff) :
    register env req rnd deliveryOk = registerAdmitted env req rnd deliveryOk m xff := by
  unfold register
  rw [is_request_valid_none env req m hm hj hl hmsisdn hphone hrate, hmsisdn, hxff]
  rfl

/-- The OTP value `register` uses for an admitted attempt: the Python
`_get_pending_registration_code(msisdn) or "".join(...)` expression, with
`or` falling through on `None` and on the empty string. -/
def codeUsed (now : Int) (store : List Record) (rnd : Rand) (m : String) : String :=
  match _get_pending_registration_code now store m with
  | some c => if c = "" then randomCode rnd.codeDraws else c
  | none => randomCode rnd.codeDraws

/-- The attempt record `register` persists for an admitted request. -/
def newRecord (env : Env) (rnd : Rand) (m xff : String) : Record :=
  { code := codeUsed env.now env.store rnd m
    msisdn := m
    date := env.now
    registration_id := token_hex rnd.tokenBytes
    sms_send := false
    ip := (splitComma xff).getLastD ""
    status := REGISTRATION_STATUS_PENDING }

theorem registerAdmitted_store (env : Env) (req : Request) (rnd : Rand)
    (deliveryOk : Bool) (m xff : String) :
    (registerAdmitted env req rnd deliveryOk m xff).store =
      newRecord env rnd m xff :: env.store := by
  unfold registerAdmitted newRecord codeUsed _save_to_datastore
  dsimp only
  split <;> first
    | rfl
    | (split <;> rfl)

theorem string_length_mk (l : List Char) : (String.mk l).length = l.length := rfl

theorem randomCode_length (draws : List (Fin 10)) :
    (randomCode draws).length = draws.length := by
  unfold randomCode
  rw [string_length_mk]
  exact List.length_map draws _

theorem digit_draw_isDigit : ∀ d : Fin 10, (Char.ofNat (48 + d.val)).isDigit = true := by
  decide

theorem randomCode_digits (draws : List (Fin 10)) :
    ∀ c ∈ (randomCode draws).data, c.isDigit = true := by
  intro c hc
  have hdata : (randomCode draws).data = draws.map (fun d => Char.ofNat (48 + d.val)) := rfl
  rw [hdata] at hc
  obtain ⟨d, _, rfl⟩ := List.mem_map.mp hc
  exact digit_draw_isDigit d

theorem should_send_sms_iff (now : Int) (store : List Record) (m : String) :
    _should_send_sms now store m = true ↔
      (_get_registration_entities now store "msisdn" m ONE_MINUTE none).length ≤
          SEND_SMS_LIMIT_PER_MINUTE ∧
        (_get_registration_entities now store "msisdn" m ONE_HOUR none).length ≤
          SEND_SMS_LIMIT_PER_HOUR ∧
        (_get_registration_entities now store "msisdn" m ONE_DAY none).length ≤
          SEND_SMS_LIMIT_PER_24_HOURS := by
  unfold _should_send_sms
  dsimp only
  split <;> rename_i h <;>
    simp only [Bool.or_eq_true, decide_eq_true_eq] at h <;> simp <;> omega

theorem no_bypass_cond (env : Env) (req : Request)
    (h : ¬(env.stage = "DEVELOPMENT" ∧ req.body_send_sms.getD true = false)) :
    (env.stage == "DEVELOPMENT" && !req.body_send_sms.getD true) = false := by
  by_cases hs : env.stage = "DEVELOPMENT"
  · have hb : req.body_send_sms.getD true = true := by
      cases hb : req.body_send_sms.getD true
      · exact absurd ⟨hs, hb⟩ h
      · rfl
    simp [hb]
  · simp [beq_iff_eq, hs]

theorem registerAdmitted_no_bypass (env : Env) (req : Request) (rnd : Rand)
    (deliveryOk : Bool) (m xff : String)
    (h : (env.stage == "DEVELOPMENT" && !req.body_send_sms.getD true) = false) :
    registerAdmitted env req rnd deliveryOk m xff =
      if _should_send_sms env.now (newRecord env rnd m xff :: env.store) m then
        ⟨.ok (token_hex rnd.tokenBytes) none, newRecord env rnd m xff :: env.store,
          [_publish_to_send_register_sms_topic deliveryOk m (token_hex rnd.tokenBytes)
            (codeUsed env.now env.store rnd m) (req.body_lang.getD "")]⟩
      else
        ⟨.ok (token_hex rnd.tokenBytes) none, newRecord env rnd m xff :: env.store, []⟩ := by
  unfold registerAdmitted newRecord codeUsed _save_to_datastore
  dsimp only
  rw [h]
  simp only [Bool.false_eq_true, if_false]

theorem registerAdmitted_bypass (env : Env) (req : Request) (rnd : Rand)
    (deliveryOk : Bool) (m xff : String)
    (h : (env.stage == "DEVELOPMENT" && !req.body_send_sms.getD true) = true) :
    registerAdmitted env req rnd deliveryOk m xff =
      ⟨.ok (token_hex rnd.tokenBytes) (some (codeUsed env.now env.store rnd m)),
        newRecord env rnd m xff :: env.store, []⟩ := by
  unfold registerAdmitted newRecord codeUsed _save_to_datastore
  dsimp only
  rw [h]
  simp only [if_true]

/-- Concrete msisdn fixture: a valid Polish number. -/
def msdnW : String := "+48123456789"

/-- Concrete record fixture for witness stores. -/
def recW (date : Int) (rid status : String) : Record :=
  { code := "111111"
    msisdn := msdnW
    date := date
    registration_id := rid
    sms_send := false
    ip := "9.9.9.9"
    status := status }

/-- Concrete message catalog fixture. -/
def msgsW : String → String → String :=
  fun c l => String.append (String.append c "/") l

/-- Concrete production environment fixture over a given store, with the
clock at 100000 seconds. -/
def envW (store : List Record) : Env :=
  { stage := "PRODUCTION", now := 100000, store := store, messages := msgsW }

/-- Concrete well-formed request fixture. -/
def reqW : Request :=
  { method := "POST"
    is_json := true
    body_msisdn := some msdnW
    body_lang := some "en"
    body_send_sms := none
    header_xff := some "1.2.3.4, 5.6.7.8" }

/-- Concrete random oracle fixture. -/
def rndW : Rand :=
  { codeDraws := [1, 2, 3, 4, 5, 6], tokenBytes := List.replicate 32 171 }

/-- Store fixture with four pending-or-incorrect records in the last hour. -/
def storeC1 : List Record :=
  [recW 99000 "aa" "pending", recW 99100 "bb" "pending",
    recW 99200 "cc" "incorrect", recW 99300 "dd" "pending"]

/-- C1: a request whose msisdn has 4 or more records with status pending or
incorrect in the last hour (pending count plus incorrect count at least 4)
is denied with the 429 response carrying the localized
registration_not_available message; the store is unchanged (no attempt
record is written, so no code is persisted) and nothing is published (no
SMS dispatch is considered). -/
theorem too_many_invalid_attempts_denied
    (env : Env) (req : Request) (rnd : Rand) (deliveryOk : Bool) (m lang : String)
    (hm : req.method = "POST") (hj : req.is_json = true)
    (hlang : req.body_lang = some lang)
    (hl : _is_language_valid req = true)
    (hmsisdn : req.body_msisdn = some m)
    (hphone : _check_phone_number m = true)
    (hcount : 4 ≤
      (_get_registration_entities env.now env.store "msisdn" m ONE_HOUR
        (some REGISTRATION_STATUS_PENDING)).length +
      (_get_registration_entities env.now env.store "msisdn" m ONE_HOUR
        (some REGISTRATION_STATUS_INCORRECT)).length) :
    register env req rnd deliveryOk =
      ⟨.reject (env.messages MESSAGE_REGISTRATION_NOT_AVAILABLE lang) 429,
        env.store, []⟩ := by
  have hrate : _is_too_many_requests_for env.now env.store "msisdn" m
      INVALID_REGS_PER_MSISDN_LIMIT = true := by
    unfold _is_too_many_requests_for INVALID_REGS_PER_MSISDN_LIMIT
    dsimp only
    rw [List.length_append]
    simp only [decide_eq_true_eq]
    omega
  unfold register _is_request_valid
  rw [hm, hj, hl, hmsisdn, hlang]
  simp [hphone, hrate]

/-- Witness for C1 at a concrete store with four matching records. -/
theorem too_many_invalid_attempts_denied_witness :
    4 ≤
      (_get_registration_entities (envW storeC1).now (envW storeC1).store "msisdn" msdnW
        ONE_HOUR (some REGISTRATION_STATUS_PENDING)).length +
      (_get_registration_entities (envW storeC1).now (envW storeC1).store "msisdn" msdnW
        ONE_HOUR (some REGISTRATION_STATUS_INCORRECT)).length ∧
    register (envW storeC1) reqW rndW true =
      ⟨.reject ((envW storeC1).messages MESSAGE_REGISTRATION_NOT_AVAILABLE "en") 429,
        (envW storeC1).store, []⟩ :=
  ⟨by decide,
    too_many_invalid_attempts_denied (envW storeC1) reqW rndW true msdnW "en"
      rfl rfl rfl (by decide) rfl (by decide) (by decide)⟩

/-- C9: every record in the store after a request is either a pre-existing
record, untouched, or the single newly created attempt record, which is
written with status pending and sms_send false; sms_send is never set to
true, in particular not when a dispatch is triggered. -/
theorem new_records_pending_and_sms_send_false
    (env : Env) (req : Request) (rnd : Rand) (deliveryOk : Bool) :
    (register env req rnd deliveryOk).store = env.store ∨
      ∃ rec : Record, (register env req rnd deliveryOk).store = rec :: env.store ∧
        rec.status = REGISTRATION_STATUS_PENDING ∧ rec.sms_send = false := by
  unfold register
  split
  · exact Or.inl rfl
  · split
    · exact Or.inl rfl
    · dsimp only
      split
      · exact Or.inr ⟨_, rfl, rfl, rfl⟩
      · split
        · exact Or.inr ⟨_, rfl, rfl, rfl⟩
        · exact Or.inr ⟨_, rfl, rfl, rfl⟩

/-- C10: source-IP extraction dereferences the X-Forwarded-For header
unconditionally: a request that passes validation but lacks the header ends
in an unhandled server error with no attempt record written, while with the
header present the persisted record's ip is the last comma-separated entry,
taken verbatim without trimming. -/
theorem xff_last_entry_or_server_error
    (env : Env) (req : Request) (rnd : Rand) (deliveryOk : Bool) (m : String)
    (hm : req.method = "POST") (hj : req.is_json = true)
    (hl : _is_language_valid req = true)
    (hmsisdn : req.body_msisdn = some m)
    (hphone : _check_phone_number m = true)
    (hrate : _is_too_many_requests_for env.now env.store "msisdn" m
      INVALID_REGS_PER_MSISDN_LIMIT = false) :
    (req.header_xff = none →
      register env req rnd deliveryOk = ⟨.serverError, env.store, []⟩) ∧
    (∀ s : String, req.header_xff = some s →
      ((register env req rnd deliveryOk).store.headD default).ip =
        (splitComma s).getLastD "") := by
  constructor
  · intro hxff
    unfold register
    rw [is_request_valid_none env req m hm hj hl hmsisdn hphone hrate, hxff]
  · intro s hxff
    rw [register_admitted env req rnd deliveryOk m s hm hj hl hmsisdn hphone hrate hxff,
      registerAdmitted_store]
    rfl

/-- Witness for C10: with the header absent the concrete request crashes
with no record written; with the header present the extracted ip is the
last entry, whitespace preserved. -/
theorem xff_last_entry_or_server_error_witness :
    register (envW []) { reqW with header_xff := none } rndW true =
      ⟨.serverError, (envW []).store, []⟩ ∧
    ((register (envW []) reqW rndW true).store.headD default).ip = " 5.6.7.8" := by
  constructor
  · exact (xff_last_entry_or_server_error (envW []) { reqW with header_xff := none }
      rndW true msdnW rfl rfl (by decide) rfl (by decide) (by decide)).1 rfl
  · rw [(xff_last_entry_or_server_error (envW []) reqW rndW true msdnW
      rfl rfl (by decide) rfl (by decide) (by decide)).2 "1.2.3.4, 5.6.7.8" rfl]
    decide

/-- C2: for an admitted request, the persisted attempt's code is verbatim
the code field of a newest pending record for the msisdn created within the
last 10 minutes when such records exist (given that stored codes are
non-empty, per the data model), and is otherwise the fresh string of 6
decimal-digit draws. -/
theorem code_reused_from_newest_or_fresh
    (env : Env) (req : Request) (rnd : Rand) (deliveryOk : Bool) (m xff : String)
    (hm : req.method = "POST") (hj : req.is_json = true)
    (hl : _is_language_valid req = true)
    (hmsisdn : req.body_msisdn = some m)
    (hphone : _check_phone_number m = true)
    (hrate : _is_too_many_requests_for env.now env.store "msisdn" m
      INVALID_REGS_PER_MSISDN_LIMIT = false)
    (hxff : req.header_xff = some xff)
    (hdraws : rnd.codeDraws.length = 6)
    (hwf : ∀ r ∈ pendingWindow env.now env.store m, r.code ≠ "") :
    ∃ rec : Record, (register env req rnd deliveryOk).store = rec :: env.store ∧
      (pendingWindow env.now env.store m ≠ [] →
        ∃ r ∈ pendingWindow env.now env.store m,
          (∀ r' ∈ pendingWindow env.now env.store m, r'.date ≤ r.date) ∧
          rec.code = r.code) ∧
      (pendingWindow env.now env.store m = [] →
        rec.code = randomCode rnd.codeDraws ∧ rec.code.length = 6 ∧
          ∀ c ∈ rec.code.data, c.isDigit = true) := by
  rw [register_admitted env req rnd deliveryOk m xff hm hj hl hmsisdn hphone hrate hxff]
  refine ⟨newRecord env rnd m xff, registerAdmitted_store env req rnd deliveryOk m xff,
    ?_, ?_⟩
  · intro hne
    obtain ⟨r, hr, hmax, hcode⟩ := pending_code_some_spec env.now env.store m hne
    refine ⟨r, hr, hmax, ?_⟩
    show codeUsed env.now env.store rnd m = r.code
    unfold codeUsed
    rw [hcode]
    exact if_neg (hwf r hr)
  · intro hnil
    have hnone : _get_pending_registration_code env.now env.store m = none :=
      (pending_code_none_iff env.now env.store m).mpr hnil
    have hcode : (newRecord env rnd m xff).code = randomCode rnd.codeDraws := by
      show codeUsed env.now env.store rnd m = randomCode rnd.codeDraws
      unfold codeUsed
      rw [hnone]
    refine ⟨hcode, ?_, ?_⟩
    · rw [hcode, randomCode_length, hdraws]
    · rw [hcode]
      exact randomCode_digits rnd.codeDraws

/-- Store fixture with one fresh and one older pending record inside the
10-minute reuse window. -/
def storeC2 : List Record :=
  [recW 99500 "aa" "pending",
    { recW 99800 "bb" "pending" with code := "222222" }]

/-- Witness for C2: with a concrete store holding two pending records in
the reuse window, the theorem applies; the newest record's code "222222" is
in fact the one reused. -/
theorem code_reused_from_newest_or_fresh_witness :
    (∀ r ∈ pendingWindow (envW storeC2).now (envW storeC2).store msdnW, r.code ≠ "") ∧
    (∃ rec : Record,
      (register (envW storeC2) reqW rndW true).store = rec :: (envW storeC2).store ∧
      (pendingWindow (envW storeC2).now (envW storeC2).store msdnW ≠ [] →
        ∃ r ∈ pendingWindow (envW storeC2).now (envW storeC2).store msdnW,
          (∀ r' ∈ pendingWindow (envW storeC2).now (envW storeC2).store msdnW,
            r'.date ≤ r.date) ∧ rec.code = r.code) ∧
      (pendingWindow (envW storeC2).now (envW storeC2).store msdnW = [] →
        rec.code = randomCode rndW.codeDraws ∧ rec.code.length = 6 ∧
          ∀ c ∈ rec.code.data, c.isDigit = true)) ∧
    ((register (envW storeC2) reqW rndW true).store.headD default).code = "222222" :=
  ⟨by decide,
    code_reused_from_newest_or_fresh (envW storeC2) reqW rndW true msdnW
      "1.2.3.4, 5.6.7.8" rfl rfl (by decide) rfl (by decide) (by decide) rfl
      (by decide) (by decide),
    by decide⟩

theorem record_field_msisdn (r : Record) : Record.field r "msisdn" = r.msisdn := rfl

theorem newRecord_mem_minute_window (env : Env) (rnd : Rand) (m xff : String)
    (store' : List Record) :
    newRecord env rnd m xff ∈
      _get_registration_entities env.now (newRecord env rnd m xff :: store')
        "msisdn" m ONE_MINUTE none := by
  unfold _get_registration_entities
  rw [mem_sortByDateDesc]
  apply List.mem_filter.mpr
  refine ⟨List.mem_cons_self _ _, ?_⟩
  unfold matchesQuery
  rw [record_field_msisdn]
  have h1 : (newRecord env rnd m xff).msisdn = m := rfl
  have h2 : (newRecord env rnd m xff).date = env.now := rfl
  rw [h1, h2]
  unfold ONE_MINUTE
  simp

/-- C3: for an admitted request outside the development bypass, an SMS is
published if and only if, counting all records for the msisdn regardless of
status over the store that already contains the just-persisted attempt
record (which itself falls inside every window), the 1-minute count is at
most 1, the 1-hour count at most 2 and the 1-day count at most 5. -/
theorem sms_published_iff_within_caps
    (env : Env) (req : Request) (rnd : Rand) (deliveryOk : Bool) (m xff : String)
    (hm : req.method = "POST") (hj : req.is_json = true)
    (hl : _is_language_valid req = true)
    (hmsisdn : req.body_msisdn = some m)
    (hphone : _check_phone_number m = true)
    (hrate : _is_too_many_requests_for env.now env.store "msisdn" m
      INVALID_REGS_PER_MSISDN_LIMIT = false)
    (hxff : req.header_xff = some xff)
    (hnobypass : ¬(env.stage = "DEVELOPMENT" ∧ req.body_send_sms.getD true = false)) :
    ∃ rec : Record,
      (register env req rnd deliveryOk).store = rec :: env.store ∧
      rec ∈ _get_registration_entities env.now ((register env req rnd deliveryOk).store)
        "msisdn" m ONE_MINUTE none ∧
      ((register env req rnd deliveryOk).published ≠ [] ↔
        (_get_registration_entities env.now ((register env req rnd deliveryOk).store)
          "msisdn" m ONE_MINUTE none).length ≤ 1 ∧
        (_get_registration_entities env.now ((register env req rnd deliveryOk).store)
          "msisdn" m ONE_HOUR none).length ≤ 2 ∧
        (_get_registration_entities env.now ((register env req rnd deliveryOk).store)
          "msisdn" m ONE_DAY none).length ≤ 5) := by
  rw [register_admitted env req rnd deliveryOk m xff hm hj hl hmsisdn hphone hrate hxff,
    registerAdmitted_no_bypass env req rnd deliveryOk m xff (no_bypass_cond env req hnobypass)]
  refine ⟨newRecord env rnd m xff, ?_, ?_, ?_⟩
  · split <;> rfl
  · have hst : (if _should_send_sms env.now (newRecord env rnd m xff :: env.store) m then
        (⟨.ok (token_hex rnd.tokenBytes) none, newRecord env rnd m xff :: env.store,
          [_publish_to_send_register_sms_topic deliveryOk m (token_hex rnd.tokenBytes)
            (codeUsed env.now env.store rnd m) (req.body_lang.getD "")]⟩ : RegisterOutcome)
      else
        ⟨.ok (token_hex rnd.tokenBytes) none, newRecord env rnd m xff :: env.store, []⟩).store =
        newRecord env rnd m xff :: env.store := by
      split <;> rfl
    rw [hst]
    exact newRecord_mem_minute_window env rnd m xff env.store
  · by_cases hsend : _should_send_sms env.now (newRecord env rnd m xff :: env.store) m = true
    · rw [if_pos hsend]
      dsimp only
      exact iff_of_true (by simp)
        ((should_send_sms_iff env.now (newRecord env rnd m xff :: env.store) m).mp hsend)
    · rw [if_neg hsend]
      dsimp only
      refine iff_of_false (by simp) ?_
      intro hcaps
      exact hsend
        ((should_send_sms_iff env.now (newRecord env rnd m xff :: env.store) m).mpr hcaps)

/-- Store fixture with a single recent record inside the last minute. -/
def storeC5 : List Record :=
  [recW 99950 "aa" "pending"]

/-- Witness for C3 at a concrete store where the minute cap trips: the new
record is the second in the minute window, so nothing is published. -/
theorem sms_published_iff_within_caps_witness :
    ∃ rec : Record,
      (register (envW storeC5) reqW rndW true).store = rec :: (envW storeC5).store ∧
      rec ∈ _get_registration_entities (envW storeC5).now
        ((register (envW storeC5) reqW rndW true).store) "msisdn" msdnW ONE_MINUTE none ∧
      ((register (envW storeC5) reqW rndW true).published ≠ [] ↔
        (_get_registration_entities (envW storeC5).now
          ((register (envW storeC5) reqW rndW true).store) "msisdn" msdnW ONE_MINUTE none).length ≤ 1 ∧
        (_get_registration_entities (envW storeC5).now
          ((register (envW storeC5) reqW rndW true).store) "msisdn" msdnW ONE_HOUR none).length ≤ 2 ∧
        (_get_registration_entities (envW storeC5).now
          ((register (envW storeC5) reqW rndW true).store) "msisdn" msdnW ONE_DAY none).length ≤ 5) :=
  sms_published_iff_within_caps (envW storeC5) reqW rndW true msdnW "1.2.3.4, 5.6.7.8"
    rfl rfl (by decide) rfl (by decide) (by decide) rfl (by decide)

/-- C5: for an admitted request on which the delivery throttle returns
false, the new attempt record is still persisted and the response is still
the ok success carrying the registration id; suppression only skips the
dispatch (nothing is published) and never fails the request. -/
theorem throttle_suppression_still_succeeds
    (env : Env) (req : Request) (rnd : Rand) (deliveryOk : Bool) (m xff : String)
    (hm : req.method = "POST") (hj : req.is_json = true)
    (hl : _is_language_valid req = true)
    (hmsisdn : req.body_msisdn = some m)
    (hphone : _check_phone_number m = true)
    (hrate : _is_too_many_requests_for env.now env.store "msisdn" m
      INVALID_REGS_PER_MSISDN_LIMIT = false)
    (hxff : req.header_xff = some xff)
    (hnobypass : ¬(env.stage = "DEVELOPMENT" ∧ req.body_send_sms.getD true = false))
    (hthrottle : _should_send_sms env.now ((register env req rnd deliveryOk).store) m = false) :
    (register env req rnd deliveryOk).store = newRecord env rnd m xff :: env.store ∧
    (register env req rnd deliveryOk).response = .ok (token_hex rnd.tokenBytes) none ∧
    (register env req rnd deliveryOk).published = [] := by
  have hreg := register_admitted env req rnd deliveryOk m xff hm hj hl hmsisdn hphone hrate hxff
  have hstore : (register env req rnd deliveryOk).store =
      newRecord env rnd m xff :: env.store := by
    rw [hreg, registerAdmitted_store]
  rw [hstore] at hthrottle
  rw [hreg, registerAdmitted_no_bypass env req rnd deliveryOk m xff
    (no_bypass_cond env req hnobypass), if_neg (by rw [hthrottle]; exact Bool.false_ne_true)]
  exact ⟨rfl, rfl, rfl⟩

/-- Witness for C5: one prior record in the last minute, so the new attempt
trips the minute cap; the record is persisted, the response is ok, nothing
is published. -/
theorem throttle_suppression_still_succeeds_witness :
    (register (envW storeC5) reqW rndW true).store =
      newRecord (envW storeC5) rndW msdnW "1.2.3.4, 5.6.7.8" :: (envW storeC5).store ∧
    (register (envW storeC5) reqW rndW true).response = .ok (token_hex rndW.tokenBytes) none ∧
    (register (envW storeC5) reqW rndW true).published = [] :=
  throttle_suppression_still_succeeds (envW storeC5) reqW rndW true msdnW "1.2.3.4, 5.6.7.8"
    rfl rfl (by decide) rfl (by decide) (by decide) rfl (by decide) (by decide)

/-- C7: once the attempt record is persisted and a dispatch is due, the
outcome of the asynchronous publish is invisible to the request: for every
delivery outcome, including failure, the response is the same ok success
with the registration id, the record is persisted, and the publish attempt
is recorded with its delivery flag — the failure is never surfaced. -/
theorem dispatch_failure_not_surfaced
    (env : Env) (req : Request) (rnd : Rand) (m xff : String)
    (hm : req.method = "POST") (hj : req.is_json = true)
    (hl : _is_language_valid req = true)
    (hmsisdn : req.body_msisdn = some m)
    (hphone : _check_phone_number m = true)
    (hrate : _is_too_many_requests_for env.now env.store "msisdn" m
      INVALID_REGS_PER_MSISDN_LIMIT = false)
    (hxff : req.header_xff = some xff)
    (hnobypass : ¬(env.stage = "DEVELOPMENT" ∧ req.body_send_sms.getD true = false))
    (hsend : _should_send_sms env.now (newRecord env rnd m xff :: env.store) m = true) :
    ∀ deliveryOk : Bool,
      (register env req rnd deliveryOk).response = .ok (token_hex rnd.tokenBytes) none ∧
      (register env req rnd deliveryOk).store = newRecord env rnd m xff :: env.store ∧
      (register env req rnd deliveryOk).published =
        [_publish_to_send_register_sms_topic deliveryOk m (token_hex rnd.tokenBytes)
          (codeUsed env.now env.store rnd m) (req.body_lang.getD "")] ∧
      ∀ msg ∈ (register env req rnd deliveryOk).published, msg.delivered = deliveryOk := by
  intro deliveryOk
  rw [register_admitted env req rnd deliveryOk m xff hm hj hl hmsisdn hphone hrate hxff,
    registerAdmitted_no_bypass env req rnd deliveryOk m xff (no_bypass_cond env req hnobypass),
    if_pos hsend]
  refine ⟨rfl, rfl, rfl, ?_⟩
  intro msg hmsg
  rcases List.mem_singleton.mp hmsg with rfl
  rfl

/-- Witness for C7: at a concrete admitted request with an empty store, a
failed delivery (flag false) still yields the ok response, the persisted
record and one published message carrying the failure flag. -/
theorem dispatch_failure_not_surfaced_witness :
    (register (envW []) reqW rndW false).response = .ok (token_hex rndW.tokenBytes) none ∧
    (register (envW []) reqW rndW false).store =
      newRecord (envW []) rndW msdnW "1.2.3.4, 5.6.7.8" :: (envW []).store ∧
    (register (envW []) reqW rndW false).published =
      [_publish_to_send_register_sms_topic false msdnW (token_hex rndW.tokenBytes)
        (codeUsed (envW []).now (envW []).store rndW msdnW) (reqW.body_lang.getD "")] ∧
    ∀ msg ∈ (register (envW []) reqW rndW false).published, msg.delivered = false :=
  dispatch_failure_not_surfaced (envW []) reqW rndW msdnW "1.2.3.4, 5.6.7.8"
    rfl rfl (by decide) rfl (by decide) (by decide) rfl (by decide) (by decide) false

theorem is_request_valid_some_reject (env : Env) (req : Request) (r : RegisterResult)
    (h : _is_request_valid env req = some r) : r.hasCode = false := by
  unfold _is_request_valid at h
  dsimp only at h
  repeat' split at h
  all_goals first
    | (injection h with h2; subst h2; rfl)
    | cases h

theorem bypass_cond_spec (env : Env) (req : Request)
    (h : (env.stage == "DEVELOPMENT" && !req.body_send_sms.getD true) = true) :
    env.stage = "DEVELOPMENT" ∧ req.body_send_sms = some false := by
  rw [Bool.and_eq_true] at h
  obtain ⟨h1, h2⟩ := h
  refine ⟨by simpa [beq_iff_eq] using h1, ?_⟩
  cases hb : req.body_send_sms with
  | none =>
    rw [hb] at h2
    simp at h2
  | some b =>
    rw [hb] at h2
    simp at h2
    rw [h2]

/-- C4 amended: whenever any response carries the raw OTP code field, the
deployment stage is DEVELOPMENT and the caller explicitly sent send_sms
false (so a production deployment never discloses the code, regardless of
caller-supplied flags); conversely, every request that passes validation
and carries the forwarded-for header, in a DEVELOPMENT deployment with
send_sms explicitly false, does receive the code in the response. -/
theorem code_disclosure_dev_only
    (env : Env) (req : Request) (rnd : Rand) (deliveryOk : Bool) :
    ((register env req rnd deliveryOk).response.hasCode = true →
      env.stage = "DEVELOPMENT" ∧ req.body_send_sms = some false) ∧
    (∀ m xff : String, req.method = "POST" → req.is_json = true →
      _is_language_valid req = true → req.body_msisdn = some m →
      _check_phone_number m = true →
      _is_too_many_requests_for env.now env.store "msisdn" m
        INVALID_REGS_PER_MSISDN_LIMIT = false →
      req.header_xff = some xff →
      env.stage = "DEVELOPMENT" → req.body_send_sms = some false →
      (register env req rnd deliveryOk).response.hasCode = true) := by
  constructor
  · intro hcode
    unfold register at hcode
    split at hcode
    · rename_i r hv
      rw [show (⟨r, env.store, []⟩ : RegisterOutcome).response = r from rfl] at hcode
      rw [is_request_valid_some_reject env req r hv] at hcode
      cases hcode
    · split at hcode
      · cases hcode
      · dsimp only at hcode
        split at hcode
        · rename_i hbypass
          exact bypass_cond_spec env req hbypass
        · split at hcode <;> cases hcode
  · intro m xff hm hj hl hmsisdn hphone hrate hxff hstage hsms
    rw [register_admitted env req rnd deliveryOk m xff hm hj hl hmsisdn hphone hrate hxff,
      registerAdmitted_bypass env req rnd deliveryOk m xff (by simp [hstage, hsms])]
    rfl

/-- Concrete development-stage environment fixture. -/
def envDevW : Env :=
  { stage := "DEVELOPMENT", now := 100000, store := [], messages := msgsW }

/-- Concrete request fixture in a development deployment with an invalid
language and an explicit send_sms false. -/
def reqBadLangW : Request :=
  { reqW with body_lang := some "de", body_send_sms := some false }

/-- Counterexample to C4 as stated: a request in a DEVELOPMENT deployment
with send_sms explicitly false whose response does not contain the code
field — it is rejected for its invalid language — so "the response contains
the code iff development mode and send_sms false" fails as an iff over all
requests. -/
theorem code_disclosure_iff_counterexample :
    envDevW.stage = "DEVELOPMENT" ∧ reqBadLangW.body_send_sms = some false ∧
    (register envDevW reqBadLangW rndW true).response.hasCode = false := by
  refine ⟨rfl, rfl, ?_⟩
  decide

/-- Concrete valid request fixture with send_sms explicitly false. -/
def reqDevNoSmsW : Request :=
  { reqW with body_send_sms := some false }

/-- Witness for the amended C4: a concrete admitted development-mode request
with send_sms false receives the raw code in its response. -/
theorem code_disclosure_dev_only_witness :
    (register envDevW reqDevNoSmsW rndW true).response.hasCode = true :=
  (code_disclosure_dev_only envDevW reqDevNoSmsW rndW true).2 msdnW "1.2.3.4, 5.6.7.8"
    rfl rfl (by decide) rfl (by decide) (by decide) rfl rfl rfl

theorem check_phone_number_iff (raw : String) :
    _check_phone_number raw = true ↔
      ∃ ds : List Char, (stripNonPhone raw).data = '+' :: '4' :: '8' :: ds ∧
        ds.length = 9 ∧ ∀ c ∈ ds, c.isDigit = true := by
  unfold _check_phone_number matchesPlusFortyEight
  split
  · rename_i rest heq
    simp only [Bool.and_eq_true, decide_eq_true_eq, List.all_eq_true]
    constructor
    · rintro ⟨hlen, hdig⟩
      exact ⟨rest, heq, hlen, hdig⟩
    · rintro ⟨ds, hds, hlen, hdig⟩
      rw [heq] at hds
      injection hds with _ hds1
      injection hds1 with _ hds2
      injection hds2 with _ hds3
      subst hds3
      exact ⟨hlen, hdig⟩
  · rename_i hne
    simp only [Bool.false_eq_true, false_iff]
    rintro ⟨ds, hds, hlen, hdig⟩
    exact hne ds hds

/-- C6 amended: the validator strips every character except decimal digits,
plus and comma, and succeeds exactly when the stripped result is the
literal +48 followed by exactly nine decimal digits, rejecting with the
localized invalid-phone 422 otherwise; but it returns only a boolean
verdict, and the msisdn used and persisted by all subsequent steps is the
raw input string, not the stripped result. -/
theorem phone_validation_boolean_raw_msisdn_used
    (env : Env) (req : Request) (rnd : Rand) (deliveryOk : Bool) (m lang : String)
    (hm : req.method = "POST") (hj : req.is_json = true)
    (hl : _is_language_valid req = true)
    (hlang : req.body_lang = some lang)
    (hmsisdn : req.body_msisdn = some m) :
    (_check_phone_number m = true ↔
      ∃ ds : List Char, (stripNonPhone m).data = '+' :: '4' :: '8' :: ds ∧
        ds.length = 9 ∧ ∀ c ∈ ds, c.isDigit = true) ∧
    (_check_phone_number m = false →
      register env req rnd deliveryOk =
        ⟨.reject (env.messages MESSAGE_INVALID_PHONE_NUMBER lang) 422, env.store, []⟩) ∧
    (∀ xff : String, _check_phone_number m = true →
      _is_too_many_requests_for env.now env.store "msisdn" m
        INVALID_REGS_PER_MSISDN_LIMIT = false →
      req.header_xff = some xff →
      ((register env req rnd deliveryOk).store.headD default).msisdn = m) := by
  refine ⟨check_phone_number_iff m, ?_, ?_⟩
  · intro hbad
    unfold register _is_request_valid
    rw [hm, hj, hl, hmsisdn, hlang]
    simp [hbad]
  · intro xff hphone hrate hxff
    rw [register_admitted env req rnd deliveryOk m xff hm hj hl hmsisdn hphone hrate hxff,
      registerAdmitted_store]
    rfl

/-- Concrete request fixture whose msisdn contains a space that stripping
removes. -/
def reqSpaceW : Request :=
  { reqW with body_msisdn := some "+48 123456789" }

/-- Counterexample to C6 as stated: the raw msisdn "+48 123456789" passes
validation because its stripped form "+48123456789" matches the pattern,
yet the msisdn persisted by the subsequent steps is the raw string with the
space, not the normalized one. -/
theorem normalized_msisdn_counterexample :
    _check_phone_number "+48 123456789" = true ∧
    stripNonPhone "+48 123456789" = "+48123456789" ∧
    ((register (envW []) reqSpaceW rndW true).store.headD default).msisdn =
      "+48 123456789" ∧
    "+48 123456789" ≠ stripNonPhone "+48 123456789" := by
  decide

/-- Witness for the amended C6: the concrete space-carrying msisdn is
persisted raw. -/
theorem phone_validation_boolean_raw_msisdn_used_witness :
    ((register (envW []) reqSpaceW rndW true).store.headD default).msisdn =
      "+48 123456789" :=
  (phone_validation_boolean_raw_msisdn_used (envW []) reqSpaceW rndW true
    "+48 123456789" "en" rfl rfl (by decide) rfl rfl).2.2 "1.2.3.4, 5.6.7.8"
    (by decide) (by decide) rfl

theorem token_hex_data (bytes : List Nat) :
    (token_hex bytes).data =
      (bytes.map (fun b => [hexDigitChar (b / 16 % 16), hexDigitChar (b % 16)])).flatten :=
  rfl

theorem token_hex_length (bytes : List Nat) :
    (token_hex bytes).length = 2 * bytes.length := by
  unfold token_hex
  rw [string_length_mk]
  induction bytes with
  | nil => rfl
  | cons x xs ih =>
    rw [List.map_cons, List.flatten_cons, List.length_append, ih]
    simp only [List.length_cons, List.length_nil]
    omega

theorem hexDigitChar_mem_hex :
    ∀ n : Fin 16, hexDigitChar n.val ∈ ("0123456789abcdef").data := by
  decide

theorem token_hex_chars (bytes : List Nat) :
    ∀ c ∈ (token_hex bytes).data, c ∈ ("0123456789abcdef").data := by
  intro c hc
  rw [token_hex_data, List.mem_flatten] at hc
  obtain ⟨l, hl, hcl⟩ := hc
  obtain ⟨b, _, rfl⟩ := List.mem_map.mp hl
  have h1 : b / 16 % 16 < 16 := Nat.mod_lt _ (by omega)
  have h2 : b % 16 < 16 := Nat.mod_lt _ (by omega)
  simp only [List.mem_cons, List.not_mem_nil, or_false] at hcl
  rcases hcl with rfl | rfl
  · exact hexDigitChar_mem_hex ⟨_, h1⟩
  · exact hexDigitChar_mem_hex ⟨_, h2⟩

theorem hexDigitChar_inj {a b : Nat} (ha : a < 16) (hb : b < 16)
    (h : hexDigitChar a = hexDigitChar b) : a = b := by
  have key : ∀ x y : Fin 16, hexDigitChar x.val = hexDigitChar y.val → x.val = y.val := by
    decide
  exact key ⟨a, ha⟩ ⟨b, hb⟩ h

theorem token_hex_inj :
    ∀ b1 b2 : List Nat, (∀ x ∈ b1, x < 256) → (∀ x ∈ b2, x < 256) →
      token_hex b1 = token_hex b2 → b1 = b2 := by
  intro b1
  induction b1 with
  | nil =>
    intro b2 _ _ h
    cases b2 with
    | nil => rfl
    | cons y ys =>
      have hlen := congrArg String.length h
      rw [token_hex_length, token_hex_length, List.length_nil, List.length_cons] at hlen
      omega
  | cons x xs ih =>
    intro b2 hb1 hb2 h
    cases b2 with
    | nil =>
      have hlen := congrArg String.length h
      rw [token_hex_length, token_hex_length, List.length_nil, List.length_cons] at hlen
      omega
    | cons y ys =>
      have hdata := congrArg String.data h
      rw [token_hex_data, token_hex_data] at hdata
      simp only [List.map_cons, List.flatten_cons, List.cons_append,
        List.nil_append] at hdata
      injection hdata with e1 hdata
      injection hdata with e2 hdata
      have hx : x < 256 := hb1 x (List.mem_cons_self x xs)
      have hy : y < 256 := hb2 y (List.mem_cons_self y ys)
      have e1' : x / 16 % 16 = y / 16 % 16 :=
        hexDigitChar_inj (Nat.mod_lt _ (by omega)) (Nat.mod_lt _ (by omega)) e1
      have e2' : x % 16 = y % 16 :=
        hexDigitChar_inj (Nat.mod_lt _ (by omega)) (Nat.mod_lt _ (by omega)) e2
      have hxy : x = y := by omega
      have hrest : token_hex xs = token_hex ys := congrArg String.mk hdata
      rw [hxy, ih ys (fun z hz => hb1 z (List.mem_cons_of_mem x hz))
        (fun z hz => hb2 z (List.mem_cons_of_mem y hz)) hrest]

theorem registerAdmitted_response_ok (env : Env) (req : Request) (rnd : Rand)
    (deliveryOk : Bool) (m xff : String) :
    ∃ c : Option String, (registerAdmitted env req rnd deliveryOk m xff).response =
      .ok (token_hex rnd.tokenBytes) c := by
  unfold registerAdmitted
  dsimp only
  split
  · exact ⟨_, rfl⟩
  · split <;> exact ⟨_, rfl⟩

/-- C8 amended: for every accepted attempt the registration id is the
hex-encoding of the 32 random bytes drawn for this attempt — 256 bits of
randomness, 64 lower-case hex characters — generated fresh per attempt,
stored on the record (whose datastore key it is) and returned to the
caller; the encoding is injective, so distinct byte draws always yield
distinct ids. -/
theorem registration_id_256_bit_hex_token
    (env : Env) (req : Request) (rnd : Rand) (deliveryOk : Bool) (m xff : String)
    (hm : req.method = "POST") (hj : req.is_json = true)
    (hl : _is_language_valid req = true)
    (hmsisdn : req.body_msisdn = some m)
    (hphone : _check_phone_number m = true)
    (hrate : _is_too_many_requests_for env.now env.store "msisdn" m
      INVALID_REGS_PER_MSISDN_LIMIT = false)
    (hxff : req.header_xff = some xff)
    (hlen : rnd.tokenBytes.length = 32)
    (hval : ∀ b ∈ rnd.tokenBytes, b < 256) :
    ∃ rec : Record, (register env req rnd deliveryOk).store = rec :: env.store ∧
      rec.registration_id = token_hex rnd.tokenBytes ∧
      (∃ c : Option String, (register env req rnd deliveryOk).response =
        .ok (token_hex rnd.tokenBytes) c) ∧
      (token_hex rnd.tokenBytes).length = 64 ∧
      (∀ c ∈ (token_hex rnd.tokenBytes).data, c ∈ ("0123456789abcdef").data) ∧
      (∀ bytes2 : List Nat, (∀ b ∈ bytes2, b < 256) →
        token_hex bytes2 = token_hex rnd.tokenBytes → bytes2 = rnd.tokenBytes) := by
  rw [register_admitted env req rnd deliveryOk m xff hm hj hl hmsisdn hphone hrate hxff]
  refine ⟨newRecord env rnd m xff, registerAdmitted_store env req rnd deliveryOk m xff,
    rfl, registerAdmitted_response_ok env req rnd deliveryOk m xff, ?_, token_hex_chars _, ?_⟩
  · rw [token_hex_length, hlen]
  · intro bytes2 h2 heq
    exact token_hex_inj bytes2 rnd.tokenBytes h2 hval heq

/-- Counterexample to C8 as stated: the id actually consists of 64 hex
characters (256 bits of randomness), not the 32 hex characters a 128-bit
token would have. -/
theorem registration_id_length_counterexample :
    (register (envW []) reqW rndW true).response =
      .ok (token_hex rndW.tokenBytes) none ∧
    (token_hex rndW.tokenBytes).length = 64 ∧
    (token_hex rndW.tokenBytes).length ≠ 32 := by
  decide

/-- Witness for the amended C8 at a concrete admitted request. -/
theorem registration_id_256_bit_hex_token_witness :
    ∃ rec : Record, (register (envW []) reqW rndW true).store = rec :: (envW []).store ∧
      rec.registration_id = token_hex rndW.tokenBytes ∧
      (∃ c : Option String, (register (envW []) reqW rndW true).response =
        .ok (token_hex rndW.tokenBytes) c) ∧
      (token_hex rndW.tokenBytes).length = 64 ∧
      (∀ c ∈ (token_hex rndW.tokenBytes).data, c ∈ ("0123456789abcdef").data) ∧
      (∀ bytes2 : List Nat, (∀ b ∈ bytes2, b < 256) →
        token_hex bytes2 = token_hex rndW.tokenBytes → bytes2 = rndW.tokenBytes) :=
  registration_id_256_bit_hex_token (envW []) reqW rndW true msdnW "1.2.3.4, 5.6.7.8"
    rfl rfl (by decide) rfl (by decide) (by decide) rfl (by decide) (by decide)

end Register
